import Mathlib

/-!
# Verification of the `ModalWindow` modal dialog manager

Shallow embedding of `src/modal-window.mjs`.  The JS class `ModalWindow`
keeps static stacking state (`#lastIndex`, `#layer`, `#store`,
`#baseZindex`) plus per-instance dialog state (a dialog node, a mask
node, a pending flag and deferred id/class values).  We embed:

* the per-instance data as the structure `ModalWindow` below;
* the static state, together with the parts of the document the class
  touches (the `<body>` children used for inertness trapping), as
  `PageState`;
* every operation the claims depend on as an executable function from
  the source: the constructor (`ModalWindow.construct`), `update`,
  `remove`, `getMostRecent`, `setBaseZindex`, `#setLabelledByAttr`,
  `#findDelegatedTarget` and the document-level `keyup` listener
  (`escapeKeyup`).

Modelling conventions:

* JS numbers are `Rat` (the z-index arithmetic involved is exact);
* `innerHTML` content is a list of `ContentElem` records carrying the
  element tag and optional `id` attribute — exactly the data
  `querySelector('h1,h2,h3,h4,h5,h6')`, `getAttribute('id')` and
  `setAttribute` inspect (`querySelector` returns the first element in
  document order, here the list order);
* the sparse JS array `#store` is a function `Nat → Option ModalWindow`
  together with `storeLength`, the JS `.length` of that array: JS
  assignment `#store[i] = v` raises `.length` to `i + 1`, while
  `delete #store[i]` leaves `.length` unchanged;
* the document queries for `.modal-window` / `.modal-mask` elements are
  answered from the registry: construction appends the two nodes and
  registers the instance, removal detaches them and unregisters, so an
  instance's nodes are in the document exactly while its registry slot
  is occupied;
* CSS selector matching in `#findDelegatedTarget` is abstracted as a
  boolean predicate on elements, and the parent chain of the event
  target is materialised as a list.
-/

/-- One element of injected `innerHTML` content: its tag name and its
`id` attribute (if any). -/
structure ContentElem where
  tag : String
  idAttr : Option String
deriving DecidableEq

/-- `true` exactly when the element is matched by the `h1,h2,h3,h4,h5,h6`
selector used by `#setLabelledByAttr`. -/
def ContentElem.isHeading (e : ContentElem) : Bool :=
  ["h1", "h2", "h3", "h4", "h5", "h6"].contains e.tag

/-- Resolved instance options (line 174: defaults spread with the
caller-supplied options object). -/
structure Config where
  isAlertDialog : Bool
  trapFocus : Bool
  lockWindowScroll : Bool
  closeOnMaskClick : Bool
  labelByFirstHeading : Bool
deriving DecidableEq

/-- A caller-supplied options object: each key optionally present. -/
structure OptionsRec where
  isAlertDialog : Option Bool := none
  trapFocus : Option Bool := none
  lockWindowScroll : Option Bool := none
  closeOnMaskClick : Option Bool := none
  labelByFirstHeading : Option Bool := none
deriving DecidableEq

/-- The `options` constructor argument: a boolean (shorthand for
`isAlertDialog`), an options object, or `null` (lines 163-172). -/
inductive OptionsArg where
  | bool (b : Bool)
  | obj (o : OptionsRec)
  | null
deriving DecidableEq

/-- Lines 163-172: a boolean 4th argument means `isAlertDialog`; a
non-object becomes the empty options object. -/
def normalizeOptions : OptionsArg → OptionsRec
  | .bool b => { isAlertDialog := some b }
  | .obj o => o
  | .null => {}

/-- Line 174: spread of the options onto the defaults. -/
def mergeConfig (o : OptionsRec) : Config where
  isAlertDialog := o.isAlertDialog.getD false
  trapFocus := o.trapFocus.getD true
  lockWindowScroll := o.lockWindowScroll.getD true
  closeOnMaskClick := o.closeOnMaskClick.getD true
  labelByFirstHeading := o.labelByFirstHeading.getD true

/-- The dialog (`#dialogNode`) element: the attributes and properties
the class reads or writes. -/
structure DialogNode where
  idAttr : Option String
  classes : List String
  ariaLabelledBy : Option String
  content : List ContentElem
  inert : Bool
  zIndex : Rat
  role : String
deriving DecidableEq

/-- The mask (`#maskNode`) element. -/
structure MaskNode where
  classes : List String
  inert : Bool
  zIndex : Rat
  hasTabindex : Bool
deriving DecidableEq

/-- One instance of the JS `ModalWindow` class. -/
structure ModalWindow where
  index : Nat
  config : Config
  dialogNode : DialogNode
  maskNode : MaskNode
  isPending : Bool
  deferredId : Option String
  deferredClass : Option String
  hasScrollHandler : Bool
deriving DecidableEq

/-- A direct child of `document.body` as seen by the inertness-trapping
code: whether it carries the exemption class, its `inert` property and
its `data-already-inert` marker. -/
structure BodyElem where
  exempt : Bool
  inert : Bool
  alreadyInert : Bool
deriving DecidableEq

/-- The static state of the class together with the `<body>` children it
manipulates. -/
structure PageState where
  lastIndex : Nat
  layer : Nat
  store : Nat → Option ModalWindow
  storeLength : Nat
  baseZindex : Rat
  bodyChildren : List BodyElem

/-- The initial page: no dialog ever constructed, default base z-index
100 (line 13), arbitrary body children. -/
def initState (bc : List BodyElem) : PageState where
  lastIndex := 0
  layer := 0
  store := fun _ => none
  storeLength := 0
  baseZindex := 100
  bodyChildren := bc

/-- A JS value handed to `setBaseZindex`, with `typeof` distinguishable. -/
inductive JSVal where
  | num (x : Rat)
  | str (s : String)
  | boolean (b : Bool)
  | null
  | undef
deriving DecidableEq

/-- `typeof v === 'number'`. -/
def jsTypeofNumber : JSVal → Bool
  | .num _ => true
  | _ => false

/-- `Number.isInteger(v)` — the predicate the spec's wording refers to. -/
def jsIsInteger : JSVal → Bool
  | .num x => x.den == 1
  | _ => false

namespace ModalWindow

/-- Line 19. -/
def mainClass : String := "modal-window"

/-- Line 26. -/
def maskClass : String := "modal-mask"

/-- Line 33. -/
def loadingClass : String := "loading"

/-- Line 47. -/
def inertExemptClass : String := "wh-inert-exempt"

/-- `classList.add`: a DOMTokenList holds no duplicates. -/
def addClass (c : String) (l : List String) : List String :=
  if c ∈ l then l else l ++ [c]

/-- `classList.remove`. -/
def removeClass (c : String) (l : List String) : List String :=
  l.filter (fun x => x ≠ c)

/-- Lines 53-59: `setBaseZindex` throws a `TypeError` unless
`typeof zIndexValue === 'number'`, otherwise stores the value. -/
def setBaseZindex (v : JSVal) (s : PageState) : Except String PageState :=
  match v with
  | .num x => .ok { s with baseZindex := x }
  | _ => .error "TypeError: Expected integer"

/-- Lines 66-82 as a fuel recursion: scan `#store` from index `n`
downward while the index stays positive. -/
def getMostRecentAux (store : Nat → Option ModalWindow) (pendingOnly : Bool) :
    Nat → Option ModalWindow
  | 0 => none
  | n + 1 =>
    match store (n + 1) with
    | some m =>
      if !pendingOnly || m.isPending then some m
      else getMostRecentAux store pendingOnly n
    | none => getMostRecentAux store pendingOnly n

/-- Lines 66-82: `getMostRecent(pendingOnly)`, scanning from
`#lastIndex` down to 1. -/
def getMostRecent (s : PageState) (pendingOnly : Bool) : Option ModalWindow :=
  getMostRecentAux s.store pendingOnly s.lastIndex

/-- Lines 88-102 on the content list: find the first heading; keep its
id if it has one, otherwise synthesize `modal-{index}-heading` and set
it on the heading; return the updated list and the id used. `none` when
the content has no heading. -/
def labelFirstHeading (index : Nat) : List ContentElem →
    Option (List ContentElem × String)
  | [] => none
  | e :: rest =>
    if e.isHeading then
      match e.idAttr with
      | some hid => some (e :: rest, hid)
      | none =>
        let hid := "modal-" ++ toString index ++ "-heading"
        some ({ e with idAttr := some hid } :: rest, hid)
    else
      match labelFirstHeading index rest with
      | none => none
      | some (rest2, hid) => some (e :: rest2, hid)

/-- Lines 87-103: `#setLabelledByAttr(modal)` — a no-op when the dialog
content has no heading, otherwise sets `aria-labelledby` to the first
heading's (possibly synthesized) id. -/
def setLabelledByAttr (m : ModalWindow) : ModalWindow :=
  match labelFirstHeading m.index m.dialogNode.content with
  | none => m
  | some (content2, hid) =>
    { m with dialogNode :=
        { m.dialogNode with content := content2, ariaLabelledBy := some hid } }

/-- JS string guard `typeof x === 'string' && x !== ''` on an optional
string. -/
def nonEmptyStr : Option String → Option String
  | some s => if s = "" then none else some s
  | none => none

/-- Lines 174-251 minus the static-state mutation: build the instance —
the two nodes (lines 205-221), then either the immediate-content branch
(lines 223-238) or the pending branch (lines 239-251). `index` and
`layer` are the values of the static counters at build time and `baseZ`
is `#baseZindex`. -/
def mkWindow (id htmlClass : Option String) (content : Option (List ContentElem))
    (config : Config) (index layer : Nat) (baseZ : Rat) : ModalWindow :=
  let uniqueClass := "modal-" ++ toString index
  let dialog0 : DialogNode :=
    { idAttr := none
      classes := [mainClass, uniqueClass]
      ariaLabelledBy := none
      content := []
      inert := false
      zIndex := baseZ + layer
      role := if config.isAlertDialog then "alertdialog" else "dialog" }
  let mask : MaskNode :=
    { classes := [maskClass, uniqueClass]
      inert := false
      zIndex := baseZ + layer - 1
      hasTabindex := config.closeOnMaskClick }
  match content with
  | some c =>
    let d1 := match nonEmptyStr id with
      | some s => { dialog0 with idAttr := some s }
      | none => dialog0
    let d2 := match nonEmptyStr htmlClass with
      | some s => { d1 with classes := addClass s d1.classes }
      | none => d1
    let inst : ModalWindow :=
      { index := index
        config := config
        dialogNode := { d2 with content := c }
        maskNode := mask
        isPending := false
        deferredId := none
        deferredClass := none
        hasScrollHandler := config.lockWindowScroll }
    if config.labelByFirstHeading then setLabelledByAttr inst else inst
  | none =>
    { index := index
      config := config
      dialogNode := { dialog0 with classes := addClass loadingClass dialog0.classes }
      maskNode := mask
      isPending := true
      deferredId := nonEmptyStr id
      deferredClass := nonEmptyStr htmlClass
      hasScrollHandler := config.lockWindowScroll }

/-- Set both of an instance's nodes `inert` (lines 273-274) or back to
active (lines 444-445). -/
def setNodesInert (b : Bool) (m : ModalWindow) : ModalWindow :=
  { m with
    dialogNode := { m.dialogNode with inert := b }
    maskNode := { m.maskNode with inert := b } }

/-- Functional override of the registry at one index. -/
def setStore (store : Nat → Option ModalWindow) (i : Nat)
    (v : Option ModalWindow) : Nat → Option ModalWindow :=
  fun j => if j = i then v else store j

/-- The number of `.modal-window` elements currently in the document —
one per registered instance (registry slots live at indices
`1 .. lastIndex`). -/
def countPresent (s : PageState) : Nat :=
  (List.range' 1 s.lastIndex).countP (fun i => (s.store i).isSome)

/-- Lines 257-265: make a `<body>` child inert for focus trapping,
recording children that were already inert. -/
def makeChildInert (e : BodyElem) : BodyElem :=
  if e.exempt then e
  else if e.inert then { e with alreadyInert := true }
  else { e with inert := true }

/-- Lines 431-439: restore a `<body>` child when the last dialog
closes; children recorded as already inert keep their inertness and
lose the marker. -/
def restoreChildInert (e : BodyElem) : BodyElem :=
  if e.exempt then e
  else if e.alreadyInert then { e with alreadyInert := false }
  else { e with inert := false }

/-- Lines 162-295: the constructor.  Argument normalisation and config
merge; `#lastIndex` increment; `#layer` increment gated on
`#store.length > 0` (lines 188-190 — note: the JS array length, not the
number of live entries); node construction with
`z-index = #baseZindex + #layer`; then either the outermost-dialog
branch (body children made inert when `trapFocus`) or the nested branch
(previous most-recent dialog and mask made inert); finally registration
at the new index. -/
def construct (id htmlClass : Option String) (content : Option (List ContentElem))
    (options : OptionsArg) (s : PageState) : PageState :=
  let config := mergeConfig (normalizeOptions options)
  let newIndex := s.lastIndex + 1
  let newLayer := if s.storeLength > 0 then s.layer + 1 else s.layer
  let inst := mkWindow id htmlClass content config newIndex newLayer s.baseZindex
  let existingCount := countPresent s
  let store0 :=
    if existingCount = 0 then s.store
    else
      match getMostRecentAux s.store false newIndex with
      | some mr => setStore s.store mr.index (some (setNodesInert true mr))
      | none => s.store
  let bc0 :=
    if existingCount = 0 then
      if config.trapFocus then s.bodyChildren.map makeChildInert else s.bodyChildren
    else s.bodyChildren
  { lastIndex := newIndex
    layer := newLayer
    store := setStore store0 newIndex (some inst)
    storeLength := max s.storeLength (newIndex + 1)
    baseZindex := s.baseZindex
    bodyChildren := bc0 }

/-- Lines 328-361: `update(htmlContent)`.  Always clears `innerHTML`
first; with content, resolves the pending state (loading class removed,
deferred id/class consumed, content injected, labelling re-run when
enabled); without content and not pending, transitions to pending
(loading class re-added, `aria-labelledby` removed when labelling
enabled); without content while pending, only the already-empty
`innerHTML` assignment happens. -/
def update (content : Option (List ContentElem)) (m : ModalWindow) : ModalWindow :=
  let m0 := { m with dialogNode := { m.dialogNode with content := [] } }
  match content with
  | some c =>
    let d1 := { m0.dialogNode with
                classes := removeClass loadingClass m0.dialogNode.classes }
    let d2 := match m.deferredId with
      | some did => { d1 with idAttr := some did }
      | none => d1
    let d3 := match m.deferredClass with
      | some dc => { d2 with classes := addClass dc d2.classes }
      | none => d2
    let m1 : ModalWindow :=
      { m0 with
        dialogNode := { d3 with content := c }
        isPending := false
        deferredId := none
        deferredClass := none }
    if m.config.labelByFirstHeading then setLabelledByAttr m1 else m1
  | none =>
    if !m.isPending then
      let d1 := { m0.dialogNode with
                  classes := addClass loadingClass m0.dialogNode.classes }
      let d2 := if m.config.labelByFirstHeading then
          { d1 with ariaLabelledBy := none }
        else d1
      { m0 with dialogNode := d2, isPending := true }
    else m0

/-- Lines 414-421 of `remove()`: the nodes detached, the registry entry
deleted and `#layer` decremented when positive — the state on which the
focus-trapping restoration then runs. -/
def removedState (i : Nat) (s : PageState) : PageState :=
  { s with
    store := setStore s.store i none
    layer := if s.layer > 0 then s.layer - 1 else s.layer }

/-- Lines 411-449: `remove()` called on the live instance registered at
index `i` (calling instance methods after removal is a stated
precondition violation, so absent indices leave the state unchanged).
Detaches the nodes and deletes the registry entry, decrements `#layer`
when positive, then — when the instance traps focus — either restores
the `<body>` children (no dialog remains) or un-inerts the new
most-recent dialog and its mask. -/
def remove (i : Nat) (s : PageState) : PageState :=
  match s.store i with
  | none => s
  | some inst =>
    let s1 := removedState i s
    if inst.config.trapFocus then
      if countPresent s1 = 0 then
        { s1 with bodyChildren := s1.bodyChildren.map restoreChildInert }
      else
        match getMostRecent s1 false with
        | some mr =>
          { s1 with store := setStore s1.store mr.index (some (setNodesInert false mr)) }
        | none => s1
    else s1

/-- A DOM `Event` as `#findDelegatedTarget` sees it: the originating
target (`event.target`, absent for a targetless event) and the element
the listener was registered on (`event.currentTarget`).  Elements are
identified by numeric ids. -/
structure EventModel where
  target : Option Nat
  currentTarget : Nat
deriving DecidableEq

/-- The do-while loop of lines 126-132: test the candidate, then move to
the parent while it is non-null and differs from `currentTarget` and
from `document.body`.  `chain` is the candidate's parent chain. -/
def findDelegatedAux (sel : Nat → Bool) (currentTarget body : Nat) :
    Nat → List Nat → Option Nat
  | cand, chain =>
    if sel cand then some cand
    else
      match chain with
      | [] => none
      | p :: rest =>
        if p = currentTarget || p = body then none
        else findDelegatedAux sel currentTarget body p rest

/-- Lines 115-135: `#findDelegatedTarget(event, selector)`, with the
selector abstracted as the predicate `sel`, `document.body` as
`body`, and the parent chain of `event.target` as `chain`. -/
def findDelegatedTarget (sel : Nat → Bool) (ev : EventModel) (body : Nat)
    (chain : List Nat) : Option Nat :=
  match ev.target with
  | none => none
  | some t => findDelegatedAux sel ev.currentTarget body t chain

end ModalWindow

/-- Lines 453-463: the document-level `keyup` listener — on Escape/Esc,
remove the most recent modal window (via its own `#index`). -/
def escapeKeyup (key : String) (s : PageState) : PageState :=
  if key ≠ "Escape" ∧ key ≠ "Esc" then s
  else
    match ModalWindow.getMostRecent s false with
    | some m => ModalWindow.remove m.index s
    | none => s

/-! ## Helper lemmas -/

/-- `querySelector('h1,h2,h3,h4,h5,h6')` on a content list: the first
heading in document order. -/
def firstHeading (l : List ContentElem) : Option ContentElem :=
  l.find? ContentElem.isHeading

namespace ModalWindow

lemma labelFirstHeading_of_no_heading (idx : Nat) (l : List ContentElem)
    (h : firstHeading l = none) : labelFirstHeading idx l = none := by
  induction l with
  | nil => rfl
  | cons e rest ih =>
    rw [firstHeading, List.find?_eq_none] at h
    have he : e.isHeading = false := by
      have := h e (List.mem_cons_self e rest)
      simpa using this
    have hrest : firstHeading rest = none := by
      rw [firstHeading, List.find?_eq_none]
      intro x hx
      exact h x (List.mem_cons_of_mem e hx)
    simp [labelFirstHeading, he, ih hrest]

lemma labelFirstHeading_of_id (idx : Nat) (l : List ContentElem) (e : ContentElem)
    (hid : String) (hfind : firstHeading l = some e) (hattr : e.idAttr = some hid) :
    labelFirstHeading idx l = some (l, hid) := by
  induction l with
  | nil => simp [firstHeading] at hfind
  | cons a rest ih =>
    by_cases ha : a.isHeading = true
    · rw [firstHeading, List.find?_cons_of_pos _ ha] at hfind
      cases hfind
      simp [labelFirstHeading, ha, hattr]
    · rw [firstHeading, List.find?_cons_of_neg _ ha] at hfind
      have := ih hfind
      simp only [Bool.not_eq_true] at ha
      simp [labelFirstHeading, ha, this]

lemma labelFirstHeading_of_no_id (idx : Nat) (l : List ContentElem) (e : ContentElem)
    (hfind : firstHeading l = some e) (hattr : e.idAttr = none) :
    ∃ l2, labelFirstHeading idx l
        = some (l2, "modal-" ++ toString idx ++ "-heading") ∧
      firstHeading l2
        = some { e with idAttr := some ("modal-" ++ toString idx ++ "-heading") } := by
  induction l with
  | nil => simp [firstHeading] at hfind
  | cons a rest ih =>
    by_cases ha : a.isHeading = true
    · rw [firstHeading, List.find?_cons_of_pos _ ha] at hfind
      cases hfind
      refine ⟨{ e with idAttr := some ("modal-" ++ toString idx ++ "-heading") } :: rest,
        ?_, ?_⟩
      · simp [labelFirstHeading, ha, hattr]
      · have ha2 : ContentElem.isHeading
            { e with idAttr := some ("modal-" ++ toString idx ++ "-heading") } = true := by
          simpa [ContentElem.isHeading] using ha
        rw [firstHeading, List.find?_cons_of_pos _ ha2]
    · rw [firstHeading, List.find?_cons_of_neg _ ha] at hfind
      obtain ⟨l2, hl2, hfirst⟩ := ih hfind
      refine ⟨a :: l2, ?_, ?_⟩
      · simp only [Bool.not_eq_true] at ha
        simp [labelFirstHeading, ha, hl2]
      · rw [firstHeading, List.find?_cons_of_neg _ ha]
        exact hfirst

lemma setLabelledByAttr_zIndex (m : ModalWindow) :
    (setLabelledByAttr m).dialogNode.zIndex = m.dialogNode.zIndex := by
  unfold setLabelledByAttr
  cases h : labelFirstHeading m.index m.dialogNode.content with
  | none => rfl
  | some pr => rfl

lemma setLabelledByAttr_classes (m : ModalWindow) :
    (setLabelledByAttr m).dialogNode.classes = m.dialogNode.classes := by
  unfold setLabelledByAttr
  cases h : labelFirstHeading m.index m.dialogNode.content with
  | none => rfl
  | some pr => rfl

lemma setLabelledByAttr_isPending (m : ModalWindow) :
    (setLabelledByAttr m).isPending = m.isPending := by
  unfold setLabelledByAttr
  cases h : labelFirstHeading m.index m.dialogNode.content with
  | none => rfl
  | some pr => rfl

lemma setLabelledByAttr_deferredClass (m : ModalWindow) :
    (setLabelledByAttr m).deferredClass = m.deferredClass := by
  unfold setLabelledByAttr
  cases h : labelFirstHeading m.index m.dialogNode.content with
  | none => rfl
  | some pr => rfl

lemma mkWindow_zIndex (id htmlClass : Option String)
    (content : Option (List ContentElem)) (config : Config) (index layer : Nat)
    (baseZ : Rat) :
    (mkWindow id htmlClass content config index layer baseZ).dialogNode.zIndex
      = baseZ + layer := by
  cases content with
  | none => rfl
  | some c =>
    unfold mkWindow
    cases hn : nonEmptyStr id <;> cases hc : nonEmptyStr htmlClass <;>
      by_cases hl : config.labelByFirstHeading = true <;>
      simp [hn, hc, hl, setLabelledByAttr_zIndex]

end ModalWindow

/-! ## C5: `getMostRecent` scans from `lastIndex` down to 1 -/

/-- `true` when the registry holds an entry at `i` passing the
`pendingOnly` filter. -/
def mostRecentHit (store : Nat → Option ModalWindow) (pendingOnly : Bool)
    (i : Nat) : Bool :=
  match store i with
  | some m => !pendingOnly || m.isPending
  | none => false

/-- The spec's description of `getMostRecent`: the entry at the highest
index among `1 .. lastIndex` that is present (and pending when the
filter is on), `none` when no such index exists. -/
def getMostRecentSpec (s : PageState) (pendingOnly : Bool) : Option ModalWindow :=
  match Nat.findGreatest (fun i => mostRecentHit s.store pendingOnly i = true)
      s.lastIndex with
  | 0 => none
  | k + 1 => s.store (k + 1)

lemma getMostRecentAux_eq_findGreatest (store : Nat → Option ModalWindow)
    (p : Bool) (n : Nat) :
    ModalWindow.getMostRecentAux store p n
      = match Nat.findGreatest (fun i => mostRecentHit store p i = true) n with
        | 0 => none
        | k + 1 => store (k + 1) := by
  induction n with
  | zero => rw [Nat.findGreatest_zero]; rfl
  | succ n ih =>
    rw [Nat.findGreatest_succ]
    by_cases h : mostRecentHit store p (n + 1) = true
    · rw [if_pos h]
      unfold mostRecentHit at h
      cases hs : store (n + 1) with
      | none => rw [hs] at h; simp at h
      | some m =>
        rw [hs] at h
        have h2 : (!p || m.isPending) = true := h
        simp only [ModalWindow.getMostRecentAux, hs]
        rw [if_pos h2]
    · rw [if_neg h]
      unfold mostRecentHit at h
      cases hs : store (n + 1) with
      | none => simp only [ModalWindow.getMostRecentAux, hs, ih]
      | some m =>
        rw [hs] at h
        simp only [ModalWindow.getMostRecentAux, hs, Bool.not_eq_true] at *
        rw [h, ih]
        simp

/-- C5 (confirmed): for every registry state and filter flag,
`getMostRecent(pendingOnly)` returns exactly the entry at the highest
index in `lastIndex .. 1` that is present (and, when `pendingOnly`,
pending), and `none` exactly when no such entry exists — stated as
equality with the specification function `getMostRecentSpec`. -/
theorem c5_getMostRecent_matches_spec (s : PageState) (pendingOnly : Bool) :
    ModalWindow.getMostRecent s pendingOnly = getMostRecentSpec s pendingOnly := by
  rw [ModalWindow.getMostRecent, getMostRecentSpec,
    getMostRecentAux_eq_findGreatest]

namespace ModalWindow

lemma setLabelledByAttr_of_no_heading (m : ModalWindow)
    (h : firstHeading m.dialogNode.content = none) :
    setLabelledByAttr m = m := by
  unfold setLabelledByAttr
  rw [labelFirstHeading_of_no_heading _ _ h]

lemma construct_layer (id hc : Option String) (c : Option (List ContentElem))
    (o : OptionsArg) (s : PageState) :
    (construct id hc c o s).layer
      = if s.storeLength > 0 then s.layer + 1 else s.layer := rfl

lemma construct_store_self (id hc : Option String) (c : Option (List ContentElem))
    (o : OptionsArg) (s : PageState) :
    (construct id hc c o s).store (s.lastIndex + 1)
      = some (mkWindow id hc c (mergeConfig (normalizeOptions o)) (s.lastIndex + 1)
          (if s.storeLength > 0 then s.layer + 1 else s.layer) s.baseZindex) := by
  simp [construct, setStore]

end ModalWindow

/-! ## C3: heading labelling (`#setLabelledByAttr`) -/

/-- C3 (amended): the labelling routine is a no-op when the content has
no heading; when the first heading has an id it keeps it and sets
`aria-labelledby` to it; when the first heading has no id it synthesizes
`modal-{index}-heading` (not `dialog-{index}-heading` as the spec
claims), writes it onto the heading and sets `aria-labelledby` to it. -/
theorem c3_labelling_amended (m : ModalWindow) :
    (firstHeading m.dialogNode.content = none →
      ModalWindow.setLabelledByAttr m = m) ∧
    (∀ e hid, firstHeading m.dialogNode.content = some e → e.idAttr = some hid →
      (ModalWindow.setLabelledByAttr m).dialogNode.ariaLabelledBy = some hid ∧
      (ModalWindow.setLabelledByAttr m).dialogNode.content = m.dialogNode.content) ∧
    (∀ e, firstHeading m.dialogNode.content = some e → e.idAttr = none →
      (ModalWindow.setLabelledByAttr m).dialogNode.ariaLabelledBy
        = some ("modal-" ++ toString m.index ++ "-heading") ∧
      firstHeading (ModalWindow.setLabelledByAttr m).dialogNode.content
        = some { e with idAttr := some ("modal-" ++ toString m.index ++ "-heading") }) := by
  refine ⟨?_, ?_, ?_⟩
  · intro h
    exact ModalWindow.setLabelledByAttr_of_no_heading m h
  · intro e hid hf ha
    unfold ModalWindow.setLabelledByAttr
    rw [ModalWindow.labelFirstHeading_of_id m.index _ e hid hf ha]
    exact ⟨rfl, rfl⟩
  · intro e hf ha
    obtain ⟨l2, hl2, hfirst⟩ :=
      ModalWindow.labelFirstHeading_of_no_id m.index _ e hf ha
    unfold ModalWindow.setLabelledByAttr
    rw [hl2]
    exact ⟨rfl, hfirst⟩

/-- A dialog built with content `<h1>` (no id) and labelling disabled,
so that the labelling routine can be applied to it in isolation. -/
def exW3 : ModalWindow :=
  ModalWindow.mkWindow none none (some [{ tag := "h1", idAttr := none }])
    (mergeConfig { labelByFirstHeading := some false }) 1 0 100

/-- C3 counterexample: on a dialog with index 1 whose content is a
single id-less `<h1>`, the routine sets `aria-labelledby` to
`modal-1-heading`, not to the `dialog-1-heading` the claim states. -/
theorem c3_counterexample :
    (ModalWindow.setLabelledByAttr exW3).dialogNode.ariaLabelledBy
      = some "modal-1-heading" ∧
    "modal-1-heading" ≠ "dialog-1-heading" := ⟨rfl, by decide⟩

/-- C3 witness: the amended theorem applied to the concrete dialog
`exW3`. -/
theorem c3_witness :
    (ModalWindow.setLabelledByAttr exW3).dialogNode.ariaLabelledBy
      = some "modal-1-heading" ∧
    firstHeading (ModalWindow.setLabelledByAttr exW3).dialogNode.content
      = some { tag := "h1", idAttr := some "modal-1-heading" } :=
  (c3_labelling_amended exW3).2.2 { tag := "h1", idAttr := none } rfl rfl

/-! ## C9: stale `aria-labelledby` after heading-less update -/

/-- C9 (confirmed): updating a labelled dialog with content containing
no heading leaves the old `aria-labelledby` in place while the new
content holds no heading at all — the attribute references a heading id
no longer present. -/
theorem c9_stale_labelledby (m : ModalWindow) (c : List ContentElem) (hid : String)
    (hcfg : m.config.labelByFirstHeading = true)
    (hlab : m.dialogNode.ariaLabelledBy = some hid)
    (hnh : ∀ e ∈ c, e.isHeading = false) :
    (ModalWindow.update (some c) m).dialogNode.ariaLabelledBy = some hid ∧
    (ModalWindow.update (some c) m).dialogNode.content = c ∧
    ∀ e ∈ (ModalWindow.update (some c) m).dialogNode.content,
      e.isHeading = false := by
  have hfh : firstHeading c = none := by
    rw [firstHeading, List.find?_eq_none]
    intro x hx
    simp [hnh x hx]
  have key : (ModalWindow.update (some c) m).dialogNode.ariaLabelledBy
        = m.dialogNode.ariaLabelledBy ∧
      (ModalWindow.update (some c) m).dialogNode.content = c := by
    rcases hdi : m.deferredId with _ | did <;>
      rcases hdc : m.deferredClass with _ | dc <;>
      simp [ModalWindow.update, hdi, hdc, hcfg,
        ModalWindow.setLabelledByAttr, ModalWindow.labelFirstHeading_of_no_heading,
        hfh]
  refine ⟨key.1.trans hlab, key.2, ?_⟩
  intro e he
  rw [key.2] at he
  exact hnh e he

/-- The dialog of C3, after its construction-time labelling ran: its
`aria-labelledby` is `modal-1-heading`. -/
def exW9 : ModalWindow :=
  ModalWindow.mkWindow none none (some [{ tag := "h1", idAttr := none }])
    (mergeConfig {}) 1 0 100

/-- C9 witness: the theorem applied to the labelled dialog `exW9`
updated with heading-less content `<p>`. -/
theorem c9_witness :
    (ModalWindow.update (some [{ tag := "p", idAttr := none }]) exW9).dialogNode.ariaLabelledBy
      = some "modal-1-heading" ∧
    (ModalWindow.update (some [{ tag := "p", idAttr := none }]) exW9).dialogNode.content
      = [{ tag := "p", idAttr := none }] ∧
    ∀ e ∈ (ModalWindow.update (some [{ tag := "p", idAttr := none }]) exW9).dialogNode.content,
      e.isHeading = false :=
  c9_stale_labelledby exW9 [{ tag := "p", idAttr := none }] "modal-1-heading"
    rfl rfl (by decide)

/-! ## C6: `#findDelegatedTarget` -/

lemma findDelegatedAux_eq_find? (sel : Nat → Bool) (ct body : Nat) :
    ∀ (chain : List Nat) (cand : Nat),
      ModalWindow.findDelegatedAux sel ct body cand chain
        = (cand :: chain.takeWhile (fun p => !(p = ct || p = body))).find? sel := by
  intro chain
  induction chain with
  | nil =>
    intro cand
    by_cases h : sel cand = true
    · simp [ModalWindow.findDelegatedAux, h, List.find?]
    · simp only [Bool.not_eq_true] at h
      simp [ModalWindow.findDelegatedAux, h, List.find?]
  | cons p rest ih =>
    intro cand
    simp only [ModalWindow.findDelegatedAux]
    by_cases h : sel cand = true
    · rw [if_pos h, List.find?_cons_of_pos _ h]
    · rw [if_neg h, List.find?_cons_of_neg _ h, List.takeWhile_cons]
      cases hq : (decide (p = ct) || decide (p = body)) with
      | true => simp [List.find?]
      | false => simp [List.find?, ih p]

/-- C6 (amended): the delegated-target lookup walks from the event's
originating target up through parents and returns the first match; the
originating target itself is ALWAYS tested — even when it is the element
the listener was registered on or the document body — while strict
ancestors stop the walk (exclusively) at the listener element or the
body.  Stated as an equation: the walked range is the target followed by
the ancestors taken while differing from both stop elements. -/
theorem c6_delegated_target_amended (sel : Nat → Bool) (ev : ModalWindow.EventModel)
    (body : Nat) (chain : List Nat) :
    ModalWindow.findDelegatedTarget sel ev body chain
      = ev.target.bind (fun t =>
          (t :: chain.takeWhile (fun p => !(p = ev.currentTarget || p = body))).find? sel) := by
  cases ht : ev.target with
  | none => simp [ModalWindow.findDelegatedTarget, ht]
  | some t =>
    simp [ModalWindow.findDelegatedTarget, ht, findDelegatedAux_eq_find?]

/-- C6 counterexample: an event dispatched directly on the element the
listener was registered on (`target = currentTarget = 5`, matching the
selector) — the lookup tests and returns that element, although the
claim states the element on which the listener was registered is never
tested. -/
theorem c6_counterexample :
    ModalWindow.findDelegatedTarget (fun _ => true)
      { target := some 5, currentTarget := 5 } 0 [] = some 5 := rfl

/-! ## C2: `setBaseZindex` argument validation -/

/-- C2 (amended): `setBaseZindex` throws a `TypeError` exactly when the
argument's JS type is not `number` (leaving every state component
unchanged, since no state is returned); for EVERY number — integer or
not — it succeeds, replacing only the base z-index, which all future
constructions then use for their computed z-index, while every already
registered dialog is left untouched. -/
theorem c2_setBaseZindex_amended (v : JSVal) (s : PageState) :
    (jsTypeofNumber v = false →
      ModalWindow.setBaseZindex v s = .error "TypeError: Expected integer") ∧
    (∀ x : Rat, v = JSVal.num x →
      ModalWindow.setBaseZindex v s = .ok { s with baseZindex := x } ∧
      ({ s with baseZindex := x } : PageState).store = s.store ∧
      ∀ id hc c o,
        ((ModalWindow.construct id hc c o { s with baseZindex := x }).store
            (({ s with baseZindex := x } : PageState).lastIndex + 1)).map
              (fun m => m.dialogNode.zIndex)
          = some (x +
              ((ModalWindow.construct id hc c o { s with baseZindex := x }).layer : Rat))) := by
  constructor
  · intro h
    cases v with
    | num x => simp [jsTypeofNumber] at h
    | str s2 => rfl
    | boolean b => rfl
    | null => rfl
    | undef => rfl
  · rintro x rfl
    refine ⟨rfl, rfl, ?_⟩
    intro id hc c o
    rw [ModalWindow.construct_store_self, ModalWindow.construct_layer]
    simp [ModalWindow.mkWindow_zIndex]

/-- C2 counterexample: `1.5` is a number but not an integer; the claim
says any non-integer argument throws, yet the call succeeds and installs
`1.5` as the base z-index. -/
theorem c2_counterexample :
    jsIsInteger (JSVal.num (mkRat 3 2)) = false ∧
    ModalWindow.setBaseZindex (JSVal.num (mkRat 3 2)) (initState [])
      = .ok { initState [] with baseZindex := mkRat 3 2 } :=
  ⟨by decide, rfl⟩

/-- C2 witness: the amended theorem applied at the number `42` and the
initial page state. -/
theorem c2_witness :
    ModalWindow.setBaseZindex (JSVal.num 42) (initState [])
      = .ok { initState [] with baseZindex := 42 } ∧
    ((ModalWindow.construct none none none .null
        { initState [] with baseZindex := 42 }).store
          (({ initState [] with baseZindex := 42 } : PageState).lastIndex + 1)).map
        (fun m => m.dialogNode.zIndex)
      = some ((42 : Rat) +
          ((ModalWindow.construct none none none .null
              { initState [] with baseZindex := 42 }).layer : Rat)) :=
  ⟨((c2_setBaseZindex_amended (JSVal.num 42) (initState [])).2 42 rfl).1,
   ((c2_setBaseZindex_amended (JSVal.num 42) (initState [])).2 42 rfl).2.2
     none none none .null⟩

/-! ## Instance-level reachability -/

namespace ModalWindow

/-- States of a single `ModalWindow` instance reachable from its
constructor by any sequence of `update` calls. -/
inductive InstReachable : ModalWindow → Prop where
  | init : ∀ (id hc : Option String) (content : Option (List ContentElem))
      (o : OptionsArg) (index layer : Nat) (baseZ : Rat),
      InstReachable (mkWindow id hc content (mergeConfig (normalizeOptions o))
        index layer baseZ)
  | step : ∀ (c : Option (List ContentElem)) (m : ModalWindow),
      InstReachable m → InstReachable (update c m)

lemma mkWindow_some_isPending (id hc : Option String) (c : List ContentElem)
    (config : Config) (index layer : Nat) (baseZ : Rat) :
    (mkWindow id hc (some c) config index layer baseZ).isPending = false := by
  by_cases hl : config.labelByFirstHeading <;>
    simp [mkWindow, setLabelledByAttr_isPending, hl]

lemma update_some_isPending (c : List ContentElem) (m : ModalWindow) :
    (update (some c) m).isPending = false := by
  by_cases hl : m.config.labelByFirstHeading <;>
    simp [update, setLabelledByAttr_isPending, hl]

lemma update_none_of_pending (m : ModalWindow) (h : m.isPending = true)
    (hc : m.dialogNode.content = []) : update none m = m := by
  obtain ⟨idx, cfg, d, mk, p, di, dc, sh⟩ := m
  obtain ⟨da, dcl, dar, dco, din, dz, dr⟩ := d
  simp only at h hc
  subst h
  subst hc
  rfl

lemma self_mem_addClass (c : String) (l : List String) : c ∈ addClass c l := by
  unfold addClass
  split
  · assumption
  · simp

lemma mem_addClass_iff (x c : String) (l : List String) :
    x ∈ addClass c l ↔ x ∈ l ∨ x = c := by
  unfold addClass
  split
  · rename_i h
    constructor
    · exact Or.inl
    · rintro (hx | rfl)
      · exact hx
      · exact h
  · simp

lemma not_mem_removeClass (c : String) (l : List String) :
    c ∉ removeClass c l := by
  unfold removeClass
  intro h
  have := List.of_mem_filter h
  simp at this

lemma update_none_of_not_pending (m : ModalWindow) (h : m.isPending = false) :
    (update none m).isPending = true ∧
    loadingClass ∈ (update none m).dialogNode.classes ∧
    (m.config.labelByFirstHeading = true →
      (update none m).dialogNode.ariaLabelledBy = none) := by
  by_cases hl : m.config.labelByFirstHeading <;>
    simp [update, h, hl, self_mem_addClass]

lemma pending_content_nil {m : ModalWindow} (hr : InstReachable m) :
    m.isPending = true → m.dialogNode.content = [] := by
  induction hr with
  | init id hc content o index layer baseZ =>
    intro hp
    cases content with
    | none => rfl
    | some c =>
      rw [mkWindow_some_isPending] at hp
      exact absurd hp (by simp)
  | step c m hm ih =>
    intro hp
    cases c with
    | some c2 =>
      rw [update_some_isPending] at hp
      exact absurd hp (by simp)
    | none =>
      by_cases h : m.isPending = true
      · rw [update_none_of_pending m h (ih h)]
        exact ih h
      · have hf : m.isPending = false := by simpa using h
        by_cases hl : m.config.labelByFirstHeading <;> simp [update, hf, hl]

end ModalWindow

/-! ## C7: argument-less `update` and the pending transition -/

/-- C7 (confirmed): on every reachable instance state, `update()` with
no content flips a non-pending instance to pending, re-applies the
loading class and (when labelling is enabled) removes `aria-labelledby`;
on an already-pending instance it changes nothing. -/
theorem c7_update_pending (m : ModalWindow) (hr : ModalWindow.InstReachable m) :
    (m.isPending = false →
      (ModalWindow.update none m).isPending = true ∧
      ModalWindow.loadingClass ∈ (ModalWindow.update none m).dialogNode.classes ∧
      (m.config.labelByFirstHeading = true →
        (ModalWindow.update none m).dialogNode.ariaLabelledBy = none)) ∧
    (m.isPending = true → ModalWindow.update none m = m) := by
  constructor
  · intro h
    exact ModalWindow.update_none_of_not_pending m h
  · intro h
    exact ModalWindow.update_none_of_pending m h
      (ModalWindow.pending_content_nil hr h)

/-- A dialog constructed with no content: it starts out pending. -/
def exW7 : ModalWindow :=
  ModalWindow.mkWindow none none none (mergeConfig (normalizeOptions .null)) 1 0 100

/-- C7 witness: the theorem applied to the concrete pending dialog
`exW7` — a second argument-less `update` leaves it unchanged. -/
theorem c7_witness : exW7.isPending = true ∧ ModalWindow.update none exW7 = exW7 :=
  ⟨rfl,
   (c7_update_pending exW7 (ModalWindow.InstReachable.init none none none .null 1 0 100)).2
     rfl⟩

/-! ## C10: pending flag vs loading class -/

namespace ModalWindow

lemma modalUnique_ne_loading (t : String) : "modal-" ++ t ≠ loadingClass := by
  intro h
  have h2 : ("modal-" ++ t).data = "loading".data := congrArg String.data h
  rw [String.data_append] at h2
  have h3 : ('m' :: 'o' :: 'd' :: 'a' :: 'l' :: '-' :: t.data)
      = ['l', 'o', 'a', 'd', 'i', 'n', 'g'] := h2
  simp at h3

lemma nonEmptyStr_eq_some {o : Option String} {s : String}
    (h : nonEmptyStr o = some s) : o = some s := by
  cases o with
  | none => cases h
  | some t =>
    have h2 : (if t = "" then none else some t) = some s := h
    by_cases ht : t = ""
    · rw [if_pos ht] at h2
      cases h2
    · rw [if_neg ht] at h2
      exact h2

lemma mkWindow_none_classes (id hc : Option String) (config : Config)
    (index layer : Nat) (baseZ : Rat) :
    (mkWindow id hc none config index layer baseZ).dialogNode.classes
      = addClass loadingClass [mainClass, "modal-" ++ toString index] := rfl

lemma mkWindow_some_classes (id hc : Option String) (c : List ContentElem)
    (config : Config) (index layer : Nat) (baseZ : Rat) :
    (mkWindow id hc (some c) config index layer baseZ).dialogNode.classes
      = match nonEmptyStr hc with
        | some s => addClass s [mainClass, "modal-" ++ toString index]
        | none => [mainClass, "modal-" ++ toString index] := by
  rcases hni : nonEmptyStr id with _ | s1 <;> rcases hnc : nonEmptyStr hc with _ | s2 <;>
    by_cases hl : config.labelByFirstHeading <;>
    simp [mkWindow, hni, hnc, hl, setLabelledByAttr_classes]

lemma mkWindow_some_deferredClass (id hc : Option String) (c : List ContentElem)
    (config : Config) (index layer : Nat) (baseZ : Rat) :
    (mkWindow id hc (some c) config index layer baseZ).deferredClass = none := by
  by_cases hl : config.labelByFirstHeading <;>
    simp [mkWindow, hl, setLabelledByAttr_deferredClass]

lemma update_some_classes (c : List ContentElem) (m : ModalWindow) :
    (update (some c) m).dialogNode.classes
      = match m.deferredClass with
        | some dc => addClass dc (removeClass loadingClass m.dialogNode.classes)
        | none => removeClass loadingClass m.dialogNode.classes := by
  rcases hdi : m.deferredId with _ | did <;> rcases hdc : m.deferredClass with _ | dc <;>
    by_cases hl : m.config.labelByFirstHeading <;>
    simp [update, hdi, hdc, hl, setLabelledByAttr_classes]

lemma update_some_deferredClass (c : List ContentElem) (m : ModalWindow) :
    (update (some c) m).deferredClass = none := by
  by_cases hl : m.config.labelByFirstHeading <;>
    simp [update, hl, setLabelledByAttr_deferredClass]

lemma update_none_deferredClass (m : ModalWindow) :
    (update none m).deferredClass = m.deferredClass := by
  by_cases hp : m.isPending <;> by_cases hl : m.config.labelByFirstHeading <;>
    simp [update, hp, hl]

/-- Instance states reachable from a constructor call whose
caller-supplied CSS class is not the loading class itself, by any
sequence of `update` calls. -/
inductive SafeReach : ModalWindow → Prop where
  | init : ∀ (id hc : Option String) (content : Option (List ContentElem))
      (o : OptionsArg) (index layer : Nat) (baseZ : Rat),
      (∀ c2, hc = some c2 → c2 ≠ loadingClass) →
      SafeReach (mkWindow id hc content (mergeConfig (normalizeOptions o))
        index layer baseZ)
  | step : ∀ (c : Option (List ContentElem)) (m : ModalWindow),
      SafeReach m → SafeReach (update c m)

lemma safeReach_instReachable {m : ModalWindow} (h : SafeReach m) :
    InstReachable m := by
  induction h with
  | init id hc content o index layer baseZ hsafe =>
    exact InstReachable.init id hc content o index layer baseZ
  | step c m hm ih => exact InstReachable.step c m ih

lemma safeReach_inv {m : ModalWindow} (h : SafeReach m) :
    (m.isPending = true ↔ loadingClass ∈ m.dialogNode.classes) ∧
    (∀ c2, m.deferredClass = some c2 → c2 ≠ loadingClass) := by
  induction h with
  | init id hc content o index layer baseZ hsafe =>
    cases content with
    | some c =>
      constructor
      · rw [mkWindow_some_isPending, mkWindow_some_classes]
        have hnotmem : loadingClass ∉
            (match nonEmptyStr hc with
             | some s => addClass s [mainClass, "modal-" ++ toString index]
             | none => [mainClass, "modal-" ++ toString index]) := by
          have hbase : loadingClass ∉ [mainClass, "modal-" ++ toString index] := by
            intro hmem
            rcases List.mem_pair.mp hmem with h1 | h1
            · exact absurd h1 (by decide)
            · exact (modalUnique_ne_loading (toString index)) h1.symm
          cases hnc : nonEmptyStr hc with
          | none => exact hbase
          | some s =>
            intro hmem
            rcases (mem_addClass_iff _ _ _).mp hmem with h1 | h1
            · exact hbase h1
            · exact hsafe s (nonEmptyStr_eq_some hnc) h1.symm
        simp [hnotmem]
      · intro c2 hc2
        rw [mkWindow_some_deferredClass] at hc2
        cases hc2
    | none =>
      constructor
      · constructor
        · intro hp
          rw [mkWindow_none_classes]
          exact self_mem_addClass loadingClass _
        · intro hmem
          rfl
      · intro c2 hc2
        have : nonEmptyStr hc = some c2 := hc2
        exact hsafe c2 (nonEmptyStr_eq_some this)
  | step c m hm ih =>
    cases c with
    | some c2 =>
      constructor
      · rw [update_some_isPending, update_some_classes]
        have hnotmem : loadingClass ∉
            (match m.deferredClass with
             | some dc => addClass dc (removeClass loadingClass m.dialogNode.classes)
             | none => removeClass loadingClass m.dialogNode.classes) := by
          cases hdc : m.deferredClass with
          | none => exact not_mem_removeClass _ _
          | some dc =>
            intro hmem
            rcases (mem_addClass_iff _ _ _).mp hmem with h1 | h1
            · exact not_mem_removeClass _ _ h1
            · exact ih.2 dc hdc h1.symm
        simp [hnotmem]
      · intro c3 hc3
        rw [update_some_deferredClass] at hc3
        cases hc3
    | none =>
      by_cases hp : m.isPending = true
      · rw [update_none_of_pending m hp
          (pending_content_nil (safeReach_instReachable hm) hp)]
        exact ih
      · have hf : m.isPending = false := by simpa using hp
        have h3 := update_none_of_not_pending m hf
        constructor
        · simp [h3.1, h3.2.1]
        · intro c2 hc2
          rw [update_none_deferredClass] at hc2
          exact ih.2 c2 hc2

end ModalWindow

/-- C10 (amended): for every instance whose caller-supplied CSS class is
not the loading class itself, the pending flag is true exactly when the
dialog node's class list contains the loading class, across any sequence
of `update` calls after construction. -/
theorem c10_pending_loading_invariant_amended (m : ModalWindow)
    (h : ModalWindow.SafeReach m) :
    m.isPending = true ↔ ModalWindow.loadingClass ∈ m.dialogNode.classes :=
  (ModalWindow.safeReach_inv h).1

/-- A dialog constructed with the extra CSS class `loading` and
immediate content. -/
def exW10 : ModalWindow :=
  ModalWindow.mkWindow none (some "loading") (some [{ tag := "p", idAttr := none }])
    (mergeConfig {}) 1 0 100

/-- C10 counterexample: constructing with `htmlClass = "loading"` and
immediate content yields a non-pending instance whose class list
contains the loading class — the claimed equivalence fails. -/
theorem c10_counterexample :
    exW10.isPending = false ∧ ModalWindow.loadingClass ∈ exW10.dialogNode.classes := by
  decide

/-- A pending dialog constructed with no extra CSS class. -/
def exW10b : ModalWindow :=
  ModalWindow.mkWindow none none none (mergeConfig (normalizeOptions .null)) 2 1 100

/-- C10 witness: the amended invariant applied to the concrete pending
dialog `exW10b`. -/
theorem c10_witness :
    exW10b.isPending = true ↔ ModalWindow.loadingClass ∈ exW10b.dialogNode.classes :=
  c10_pending_loading_invariant_amended exW10b
    (ModalWindow.SafeReach.init none none none .null 2 1 100
      (fun _ h2 => Option.noConfusion h2))

/-! ## C1: the layer counter invariant -/

/-- The state after `new ModalWindow()`, `remove()`, `new ModalWindow()`. -/
def c1seq : PageState :=
  ModalWindow.construct none none none .null
    (ModalWindow.remove 1 (ModalWindow.construct none none none .null (initState [])))

/-- C1 exhibit (code bug): after constructing a dialog, removing it and
constructing another, exactly one dialog is registered yet `#layer` is 1
— the documented invariant `layer = count - 1 = 0` fails, because line
188 tests `#store.length > 0` and a JS `delete` never shrinks the array
length, while the DOM-based check three lines below (line 255)
correctly treats the new dialog as the only one. -/
theorem c1_layer_invariant_violated :
    ModalWindow.countPresent c1seq = 1 ∧ c1seq.layer = 1 ∧
    c1seq.layer ≠ ModalWindow.countPresent c1seq - 1 := by
  decide

/-! ## Registry-scan characterisation and constructor projections -/

namespace ModalWindow

lemma getMostRecentAux_some {store : Nat → Option ModalWindow} {p : Bool} {n : Nat}
    {m : ModalWindow} (h : getMostRecentAux store p n = some m) :
    ∃ i, 1 ≤ i ∧ i ≤ n ∧ store i = some m ∧ (p = true → m.isPending = true) ∧
      ∀ j, i < j → j ≤ n → mostRecentHit store p j = false := by
  induction n with
  | zero => cases h
  | succ n ih =>
    rcases hs : store (n + 1) with _ | v
    · have h2 : getMostRecentAux store p n = some m := by
        simpa [getMostRecentAux, hs] using h
      obtain ⟨i, h1, h2b, h3, h4, h5⟩ := ih h2
      refine ⟨i, h1, Nat.le_succ_of_le h2b, h3, h4, ?_⟩
      intro j hij hj
      rcases Nat.lt_or_ge j (n + 1) with hj2 | hj2
      · exact h5 j hij (Nat.lt_succ_iff.mp hj2)
      · have hje : j = n + 1 := le_antisymm hj hj2
        subst hje
        simp [mostRecentHit, hs]
    · by_cases hf : (!p || v.isPending) = true
      · have h2 : some v = some m := by
          simpa [getMostRecentAux, hs, hf] using h
        cases h2
        refine ⟨n + 1, Nat.succ_le_succ (Nat.zero_le n), le_refl _, hs, ?_, ?_⟩
        · intro hp
          rw [hp] at hf
          simpa using hf
        · intro j hij hj
          exact absurd (lt_of_lt_of_le hij hj) (lt_irrefl _)
      · have h2 : getMostRecentAux store p n = some m := by
          simpa [getMostRecentAux, hs, hf] using h
        obtain ⟨i, h1, h2b, h3, h4, h5⟩ := ih h2
        refine ⟨i, h1, Nat.le_succ_of_le h2b, h3, h4, ?_⟩
        intro j hij hj
        rcases Nat.lt_or_ge j (n + 1) with hj2 | hj2
        · exact h5 j hij (Nat.lt_succ_iff.mp hj2)
        · have hje : j = n + 1 := le_antisymm hj hj2
          subst hje
          have hf2 : (!p || v.isPending) = false := by
            simpa using hf
          simp [mostRecentHit, hs, hf2]

lemma getMostRecentAux_of_max {store : Nat → Option ModalWindow} {k n : Nat}
    {v : ModalWindow} (h1 : 1 ≤ k) (hk : store k = some v) (hkn : k ≤ n)
    (habove : ∀ j, k < j → j ≤ n → store j = none) :
    getMostRecentAux store false n = some v := by
  induction n with
  | zero => omega
  | succ n ih =>
    by_cases hkn2 : k = n + 1
    · subst hkn2
      simp [getMostRecentAux, hk]
    · have hkn3 : k ≤ n := by omega
      have hs : store (n + 1) = none := habove (n + 1) (by omega) (le_refl _)
      simpa [getMostRecentAux, hs] using
        ih hkn3 (fun j hj hj2 => habove j hj (Nat.le_succ_of_le hj2))

lemma setNodesInert_index (b : Bool) (m : ModalWindow) :
    (setNodesInert b m).index = m.index := rfl

lemma setNodesInert_zIndex (b : Bool) (m : ModalWindow) :
    (setNodesInert b m).dialogNode.zIndex = m.dialogNode.zIndex := rfl

lemma setLabelledByAttr_index (m : ModalWindow) :
    (setLabelledByAttr m).index = m.index := by
  unfold setLabelledByAttr
  cases h : labelFirstHeading m.index m.dialogNode.content with
  | none => rfl
  | some pr => rfl

lemma mkWindow_index (id hc : Option String) (content : Option (List ContentElem))
    (config : Config) (index layer : Nat) (baseZ : Rat) :
    (mkWindow id hc content config index layer baseZ).index = index := by
  cases content with
  | none => rfl
  | some c =>
    unfold mkWindow
    rcases hni : nonEmptyStr id with _ | s1 <;> rcases hnc : nonEmptyStr hc with _ | s2 <;>
      by_cases hl : config.labelByFirstHeading <;>
      simp [hni, hnc, hl, setLabelledByAttr_index]

lemma construct_lastIndex (id hc : Option String) (c : Option (List ContentElem))
    (o : OptionsArg) (s : PageState) :
    (construct id hc c o s).lastIndex = s.lastIndex + 1 := rfl

lemma construct_baseZindex (id hc : Option String) (c : Option (List ContentElem))
    (o : OptionsArg) (s : PageState) :
    (construct id hc c o s).baseZindex = s.baseZindex := rfl

lemma construct_storeLength (id hc : Option String) (c : Option (List ContentElem))
    (o : OptionsArg) (s : PageState) :
    (construct id hc c o s).storeLength = max s.storeLength (s.lastIndex + 1 + 1) := rfl

lemma construct_store_other (id hc : Option String) (c : Option (List ContentElem))
    (o : OptionsArg) (s : PageState) (j : Nat) (hj : j ≠ s.lastIndex + 1) :
    (construct id hc c o s).store j =
      if countPresent s = 0 then s.store j
      else
        match getMostRecentAux s.store false (s.lastIndex + 1) with
        | some mr => setStore s.store mr.index (some (setNodesInert true mr)) j
        | none => s.store j := by
  by_cases hc2 : countPresent s = 0
  · simp [construct, setStore, hj, hc2]
  · rcases ha : getMostRecentAux s.store false (s.lastIndex + 1) with _ | mr <;>
      simp [construct, setStore, hj, hc2, ha]

end ModalWindow

/-! ## C4: stacking of construct-only sequences -/

/-- One constructor call's arguments. -/
structure CArgs where
  id : Option String
  htmlClass : Option String
  content : Option (List ContentElem)
  options : OptionsArg
deriving DecidableEq

/-- Run a sequence of constructor calls left to right. -/
def runConstructs (l : List CArgs) (s : PageState) : PageState :=
  l.foldl (fun st a => ModalWindow.construct a.id a.htmlClass a.content a.options st) s

/-- Invariant of a page reached from base z-index `b` by `k`
constructor calls and no removals. -/
def C4Inv (b : Rat) (k : Nat) (s : PageState) : Prop :=
  s.lastIndex = k ∧
  s.baseZindex = b ∧
  s.storeLength = (if k = 0 then 0 else k + 1) ∧
  s.layer = k - 1 ∧
  (∀ j m, s.store j = some m → m.index = j) ∧
  (∀ j, 1 ≤ j → j ≤ k →
    ((s.store j).map (fun m => m.dialogNode.zIndex)) = some (b + ((j - 1 : Nat) : Rat))) ∧
  (∀ j, j = 0 ∨ k < j → s.store j = none)

lemma c4_init (bc : List BodyElem) : C4Inv 100 0 (initState bc) := by
  refine ⟨rfl, rfl, rfl, rfl, ?_, ?_, ?_⟩
  · intro j m h
    cases h
  · intro j h1 h2
    omega
  · intro j h
    rfl

lemma c4_step (a : CArgs) (b : Rat) (k : Nat) (s : PageState) (h : C4Inv b k s) :
    C4Inv b (k + 1) (ModalWindow.construct a.id a.htmlClass a.content a.options s) := by
  obtain ⟨hLI, hBZ, hSL, hLay, hWF, hZ, hNone⟩ := h
  have hNL : (if s.storeLength > 0 then s.layer + 1 else s.layer) = k := by
    rw [hSL, hLay]
    split_ifs <;> omega
  have hself := ModalWindow.construct_store_self a.id a.htmlClass a.content a.options s
  rw [hLI] at hself
  refine ⟨?_, ?_, ?_, ?_, ?_, ?_, ?_⟩
  · rw [ModalWindow.construct_lastIndex, hLI]
  · rw [ModalWindow.construct_baseZindex, hBZ]
  · rw [ModalWindow.construct_storeLength, hLI, hSL]
    by_cases hk : k = 0
    · subst hk
      decide
    · rw [if_neg hk, if_neg (by omega : ¬ k + 1 = 0), Nat.max_eq_right (by omega)]
  · rw [ModalWindow.construct_layer]
    rw [hSL, hLay]
    split_ifs <;> omega
  · intro j m hjm
    by_cases hjk : j = k + 1
    · subst hjk
      rw [hself] at hjm
      cases hjm
      rw [ModalWindow.mkWindow_index]
    · have hstep := ModalWindow.construct_store_other a.id a.htmlClass a.content
        a.options s j (by rw [hLI]; exact hjk)
      rw [hstep] at hjm
      by_cases hcp : ModalWindow.countPresent s = 0
      · rw [if_pos hcp] at hjm
        exact hWF j m hjm
      · rw [if_neg hcp] at hjm
        rcases ha : ModalWindow.getMostRecentAux s.store false (s.lastIndex + 1)
            with _ | mr
        · rw [ha] at hjm
          exact hWF j m hjm
        · rw [ha] at hjm
          simp only [ModalWindow.setStore] at hjm
          by_cases hji : j = mr.index
          · rw [if_pos hji] at hjm
            cases hjm
            rw [ModalWindow.setNodesInert_index, hji]
          · rw [if_neg hji] at hjm
            exact hWF j m hjm
  · intro j hj1 hjk1
    by_cases hjk : j = k + 1
    · subst hjk
      rw [hself]
      simp only [Option.map_some', ModalWindow.mkWindow_zIndex]
      rw [hBZ, hNL]
      norm_num
    · have hjle : j ≤ k := by omega
      have hstep := ModalWindow.construct_store_other a.id a.htmlClass a.content
        a.options s j (by rw [hLI]; exact hjk)
      rw [hstep]
      by_cases hcp : ModalWindow.countPresent s = 0
      · rw [if_pos hcp]
        exact hZ j hj1 hjle
      · rw [if_neg hcp]
        rcases ha : ModalWindow.getMostRecentAux s.store false (s.lastIndex + 1)
            with _ | mr
        · exact hZ j hj1 hjle
        · obtain ⟨i, hi1, hi2, hsi, _, _⟩ := ModalWindow.getMostRecentAux_some ha
          have hmi : mr.index = i := hWF i mr hsi
          simp only [ModalWindow.setStore]
          by_cases hji : j = mr.index
          · rw [if_pos hji]
            have hzj := hZ j hj1 hjle
            rw [hji, hmi, hsi] at hzj
            simp only [Option.map_some'] at hzj ⊢
            rw [ModalWindow.setNodesInert_zIndex, hzj, hji, hmi]
          · rw [if_neg hji]
            exact hZ j hj1 hjle
  · intro j hj
    have hjk : j ≠ k + 1 := by omega
    have hstep := ModalWindow.construct_store_other a.id a.htmlClass a.content
      a.options s j (by rw [hLI]; exact hjk)
    rw [hstep]
    by_cases hcp : ModalWindow.countPresent s = 0
    · rw [if_pos hcp]
      exact hNone j (by omega)
    · rw [if_neg hcp]
      rcases ha : ModalWindow.getMostRecentAux s.store false (s.lastIndex + 1)
          with _ | mr
      · exact hNone j (by omega)
      · obtain ⟨i, hi1, hi2, hsi, _, _⟩ := ModalWindow.getMostRecentAux_some ha
        have hmi : mr.index = i := hWF i mr hsi
        rw [hLI] at hi2
        simp only [ModalWindow.setStore]
        rw [if_neg (by omega : ¬ j = mr.index)]
        exact hNone j (by omega)

lemma c4_run (l : List CArgs) (b : Rat) (k : Nat) (s : PageState) (h : C4Inv b k s) :
    C4Inv b (k + l.length) (runConstructs l s) := by
  induction l generalizing k s with
  | nil => simpa [runConstructs] using h
  | cons a rest ih =>
    have h3 := ih (k + 1)
      (ModalWindow.construct a.id a.htmlClass a.content a.options s) (c4_step a b k s h)
    have harith : k + (a :: rest).length = k + 1 + rest.length := by
      simp [List.length_cons]
      omega
    rw [harith]
    exact h3

/-- C4 (confirmed): starting from a fresh page, any sequence of `N`
constructor calls with no removals leaves `layer = N - 1`; the dialog
constructed `j`-th carries computed z-index `baseZIndex + (j - 1)` —
its base plus the layer at its construction time — so each dialog's
z-index strictly exceeds the previous one's. -/
theorem c4_stacking_monotone (l : List CArgs) (bc : List BodyElem) :
    (l ≠ [] → (runConstructs l (initState bc)).layer = l.length - 1) ∧
    (∀ j, 1 ≤ j → j ≤ l.length →
      ((runConstructs l (initState bc)).store j).map (fun m => m.dialogNode.zIndex)
        = some (100 + ((j - 1 : Nat) : Rat))) ∧
    (∀ j m1 m2, 1 ≤ j → j + 1 ≤ l.length →
      (runConstructs l (initState bc)).store j = some m1 →
      (runConstructs l (initState bc)).store (j + 1) = some m2 →
      m1.dialogNode.zIndex < m2.dialogNode.zIndex) := by
  have hinv := c4_run l 100 0 (initState bc) (c4_init bc)
  rw [Nat.zero_add] at hinv
  obtain ⟨hLI, hBZ, hSL, hLay, hWF, hZ, hNone⟩ := hinv
  refine ⟨fun _ => hLay, hZ, ?_⟩
  intro j m1 m2 hj1 hj2 hs1 hs2
  have hz1 := hZ j hj1 (by omega)
  have hz2 := hZ (j + 1) (by omega) hj2
  rw [hs1] at hz1
  rw [hs2] at hz2
  simp only [Option.map_some', Option.some.injEq] at hz1 hz2
  rw [hz1, hz2]
  have hlt : ((j - 1 : Nat) : Rat) < ((j + 1 - 1 : Nat) : Rat) := by
    rw [Nat.cast_lt]
    omega
  exact add_lt_add_left hlt 100

/-- Three default constructor calls. -/
def ex4args : List CArgs :=
  [⟨none, none, none, .null⟩, ⟨none, none, none, .null⟩, ⟨none, none, none, .null⟩]

/-- C4 witness: the theorem applied to three constructions from a fresh
page — `layer = 2` and the first two dialogs got z-indices 100 and 101. -/
theorem c4_witness :
    ex4args ≠ [] ∧
    (runConstructs ex4args (initState [])).layer = ex4args.length - 1 ∧
    ((runConstructs ex4args (initState [])).store 1).map (fun m => m.dialogNode.zIndex)
      = some (100 + ((1 - 1 : Nat) : Rat)) ∧
    ((runConstructs ex4args (initState [])).store 2).map (fun m => m.dialogNode.zIndex)
      = some (100 + ((2 - 1 : Nat) : Rat)) :=
  ⟨by decide, (c4_stacking_monotone ex4args []).1 (by decide),
   (c4_stacking_monotone ex4args []).2.1 1 (by decide) (by decide),
   (c4_stacking_monotone ex4args []).2.1 2 (by decide) (by decide)⟩


/-! ## C8: the escape key and the top dialog -/

namespace ModalWindow

/-- A well-formed registry: entries live at indices `1 .. lastIndex`
and each instance is registered under its own `#index`. -/
def WFStore (s : PageState) : Prop :=
  ∀ i m, s.store i = some m → 1 ≤ i ∧ i ≤ s.lastIndex ∧ m.index = i

lemma WFStore_of_C4Inv {b : Rat} {k : Nat} {s : PageState} (h : C4Inv b k s) :
    WFStore s := by
  obtain ⟨hLI, _, _, _, hWF, _, hNone⟩ := h
  intro i m hm
  have hi : ¬(i = 0 ∨ k < i) := by
    intro hcon
    rw [hNone i hcon] at hm
    cases hm
  push_neg at hi
  exact ⟨by omega, by omega, hWF i m hm⟩

lemma mostRecentHit_false_iff {store : Nat → Option ModalWindow} {j : Nat} :
    mostRecentHit store false j = false ↔ store j = none := by
  unfold mostRecentHit
  cases store j <;> simp

lemma getMostRecentAux_isSome_of_hit {store : Nat → Option ModalWindow}
    {n j : Nat} (h1 : 1 ≤ j) (hj : j ≤ n) (hhit : (store j).isSome = true) :
    ∃ v, getMostRecentAux store false n = some v := by
  induction n with
  | zero => omega
  | succ n ih =>
    rcases hs : store (n + 1) with _ | v
    · by_cases hje : j = n + 1
      · subst hje
        rw [hs] at hhit
        cases hhit
      · have hjn : j ≤ n := by omega
        obtain ⟨v, hv⟩ := ih hjn
        exact ⟨v, by simpa [getMostRecentAux, hs] using hv⟩
    · exact ⟨v, by simp [getMostRecentAux, hs]⟩

lemma nodup_all_eq_length_le_one {l : List Nat} {a : Nat} (hnd : l.Nodup)
    (hall : ∀ x ∈ l, x = a) : l.length ≤ 1 := by
  cases l with
  | nil => simp
  | cons y ys =>
    have hya : y = a := hall y (List.mem_cons_self y ys)
    have hnd2 := List.nodup_cons.mp hnd
    have hys : ys = [] := by
      by_contra hne
      obtain ⟨z, hz⟩ := List.exists_mem_of_ne_nil ys hne
      have hza : z = a := hall z (List.mem_cons_of_mem y hz)
      rw [hya] at hnd2
      rw [hza] at hz
      exact hnd2.1 hz
    rw [hys]
    simp

lemma exists_second_of_two_le_countP {l : List Nat} {p : Nat → Bool}
    (hnd : l.Nodup) (h2 : 2 ≤ l.countP p) (a : Nat) :
    ∃ x, x ∈ l ∧ p x = true ∧ x ≠ a := by
  by_contra hcon
  push_neg at hcon
  have hfil : ∀ x ∈ l.filter p, x = a := by
    intro x hx
    have hx2 := List.mem_filter.mp hx
    exact hcon x hx2.1 hx2.2
  have hlen : (l.filter p).length ≤ 1 :=
    nodup_all_eq_length_le_one (hnd.filter p) hfil
  rw [List.countP_eq_length_filter] at h2
  omega

lemma remove_unfold (i : Nat) (s : PageState) (inst : ModalWindow)
    (hsi : s.store i = some inst) (htr : inst.config.trapFocus = true)
    (hcnt : countPresent (removedState i s) ≠ 0) :
    remove i s =
      (match getMostRecent (removedState i s) false with
       | some mr => { removedState i s with
           store := setStore (removedState i s).store mr.index
             (some (setNodesInert false mr)) }
       | none => removedState i s) := by
  simp only [remove, hsi]
  rw [if_pos htr, if_neg hcnt]

end ModalWindow

/-- C8 (amended): in every well-formed state with at least two open
dialogs, releasing Escape removes exactly the dialog at the highest
present index — every other dialog stays registered and every present
index is at most the removed one's — and, PROVIDED the removed dialog
was constructed with `trapFocus` enabled (the condition the claim
omits), the new most-recent dialog and its mask are restored to
non-inert. -/
theorem c8_escape_removes_top_amended (s : PageState) (mtop : ModalWindow)
    (hwf : ModalWindow.WFStore s)
    (htop : ModalWindow.getMostRecent s false = some mtop)
    (htr : mtop.config.trapFocus = true)
    (hcnt : 2 ≤ ModalWindow.countPresent s) :
    (escapeKeyup "Escape" s).store mtop.index = none ∧
    (∀ j, j ≠ mtop.index →
      ((s.store j).isSome ↔ ((escapeKeyup "Escape" s).store j).isSome)) ∧
    (∀ j m, s.store j = some m → j ≤ mtop.index) ∧
    (∃ mr, ModalWindow.getMostRecent (escapeKeyup "Escape" s) false = some mr ∧
      mr.dialogNode.inert = false ∧ mr.maskNode.inert = false) := by
  -- the slot of the top entry
  obtain ⟨i, hi1, hiLI, hsi, _, habove⟩ := ModalWindow.getMostRecentAux_some htop
  obtain ⟨_, _, hidx⟩ := hwf i mtop hsi
  have hsmi : s.store mtop.index = some mtop := by
    rw [hidx]
    exact hsi
  -- a second present index, surviving the removal
  obtain ⟨j2, hj2mem, hj2p, hj2ne⟩ :=
    ModalWindow.exists_second_of_two_le_countP (List.nodup_range' _ _) hcnt mtop.index
  have hj2r : 1 ≤ j2 ∧ j2 < 1 + s.lastIndex := List.mem_range'_1.mp hj2mem
  have hhit2 : ((ModalWindow.removedState mtop.index s).store j2).isSome = true := by
    show (ModalWindow.setStore s.store mtop.index none j2).isSome = true
    rw [show ModalWindow.setStore s.store mtop.index none j2 = s.store j2 from by
      simp [ModalWindow.setStore, hj2ne]]
    exact hj2p
  have hcnt1 : ModalWindow.countPresent (ModalWindow.removedState mtop.index s) ≠ 0 := by
    intro hzero
    have hpos : 0 < ModalWindow.countPresent (ModalWindow.removedState mtop.index s) := by
      rw [ModalWindow.countPresent, List.countP_pos_iff]
      exact ⟨j2, List.mem_range'_1.mpr ⟨hj2r.1, hj2r.2⟩, hhit2⟩
    omega
  -- the scan of the shrunken registry yields a new most-recent entry
  obtain ⟨mr, hmr⟩ : ∃ mr,
      ModalWindow.getMostRecent (ModalWindow.removedState mtop.index s) false
        = some mr :=
    ModalWindow.getMostRecentAux_isSome_of_hit hj2r.1 (by omega : j2 ≤ s.lastIndex)
      hhit2
  -- the escape handler is `remove` on the top entry
  have hesc : escapeKeyup "Escape" s = ModalWindow.remove mtop.index s := by
    unfold escapeKeyup
    rw [if_neg (by decide), htop]
  have hfinal : escapeKeyup "Escape" s
      = { ModalWindow.removedState mtop.index s with
          store := ModalWindow.setStore
            (ModalWindow.removedState mtop.index s).store mr.index
            (some (ModalWindow.setNodesInert false mr)) } := by
    rw [hesc, ModalWindow.remove_unfold mtop.index s mtop hsmi htr hcnt1, hmr]
  -- facts about the new most-recent entry
  have hmr2 := hmr
  rw [ModalWindow.getMostRecent] at hmr2
  obtain ⟨i2, hi21, hi2LI, hsi2, _, habove2⟩ := ModalWindow.getMostRecentAux_some hmr2
  have hi2LI2 : i2 ≤ s.lastIndex := hi2LI
  have hi2ne : i2 ≠ mtop.index := by
    intro hcon
    have h0 : ModalWindow.setStore s.store mtop.index none i2 = some mr := hsi2
    rw [hcon] at h0
    simp [ModalWindow.setStore] at h0
  have hsio : s.store i2 = some mr := by
    have h0 : ModalWindow.setStore s.store mtop.index none i2 = some mr := hsi2
    simpa [ModalWindow.setStore, hi2ne] using h0
  obtain ⟨_, _, hmidx⟩ := hwf i2 mr hsio
  have hmrne : mr.index ≠ mtop.index := by
    rw [hmidx]
    exact hi2ne
  refine ⟨?_, ?_, ?_, ?_⟩
  · rw [hfinal]
    show ModalWindow.setStore (ModalWindow.removedState mtop.index s).store mr.index
        (some (ModalWindow.setNodesInert false mr)) mtop.index = none
    have hne2 : mtop.index ≠ mr.index := fun h => hmrne h.symm
    simp [ModalWindow.setStore, ModalWindow.removedState, hne2]
  · intro j hjne
    rw [hfinal]
    show (s.store j).isSome ↔
      (ModalWindow.setStore (ModalWindow.removedState mtop.index s).store mr.index
        (some (ModalWindow.setNodesInert false mr)) j).isSome
    by_cases hjmr : j = mr.index
    · subst hjmr
      rw [← hmidx] at hsio
      simp [ModalWindow.setStore, hsio]
    · simp [ModalWindow.setStore, ModalWindow.removedState, hjmr, hjne]
  · intro j m hjm
    obtain ⟨hj1, hjLI, _⟩ := hwf j m hjm
    by_contra hgt
    push_neg at hgt
    have higt : i < j := by
      rw [← hidx]
      exact hgt
    have hhit := habove j higt hjLI
    rw [ModalWindow.mostRecentHit_false_iff] at hhit
    rw [hhit] at hjm
    cases hjm
  · refine ⟨ModalWindow.setNodesInert false mr, ?_, rfl, rfl⟩
    rw [hfinal]
    show ModalWindow.getMostRecentAux
        (ModalWindow.setStore (ModalWindow.removedState mtop.index s).store mr.index
          (some (ModalWindow.setNodesInert false mr))) false s.lastIndex
      = some (ModalWindow.setNodesInert false mr)
    have hself : ModalWindow.setStore (ModalWindow.removedState mtop.index s).store
        mr.index (some (ModalWindow.setNodesInert false mr)) mr.index
        = some (ModalWindow.setNodesInert false mr) := by
      simp [ModalWindow.setStore]
    have h1b : 1 ≤ mr.index := by
      rw [hmidx]
      exact hi21
    have hknb : mr.index ≤ s.lastIndex := by
      rw [hmidx]
      exact hi2LI2
    refine ModalWindow.getMostRecentAux_of_max h1b hself hknb ?_
    intro j hjgt hjle
    have hjne2 : j ≠ mr.index := by omega
    have hi2gt : i2 < j := by
      rw [← hmidx]
      exact hjgt
    have hjhit := habove2 j hi2gt hjle
    rw [ModalWindow.mostRecentHit_false_iff] at hjhit
    show ModalWindow.setStore (ModalWindow.removedState mtop.index s).store mr.index
        (some (ModalWindow.setNodesInert false mr)) j = none
    rw [show ModalWindow.setStore (ModalWindow.removedState mtop.index s).store
        mr.index (some (ModalWindow.setNodesInert false mr)) j
        = (ModalWindow.removedState mtop.index s).store j from by
      simp [ModalWindow.setStore, hjne2]]
    exact hjhit

/-- Two dialogs opened in order, the second (topmost) constructed with
`trapFocus: false`; opening the second made the first inert. -/
def ex8bad : PageState :=
  ModalWindow.construct none none none (.obj { trapFocus := some false })
    (ModalWindow.construct none none none .null (initState []))

/-- C8 counterexample: with two dialogs open and the top one built with
`trapFocus: false`, Escape removes the top dialog but the remaining
most-recent dialog stays inert — the claim promises it is restored to
non-inert in every such state. -/
theorem c8_counterexample :
    ModalWindow.countPresent ex8bad = 2 ∧
    ((ModalWindow.getMostRecent (escapeKeyup "Escape" ex8bad) false).map
      (fun mr => mr.dialogNode.inert)) = some true := by
  decide

/-- Two default constructor calls. -/
def ex8args : List CArgs := [⟨none, none, none, .null⟩, ⟨none, none, none, .null⟩]

/-- The page after two default constructions. -/
def ex8 : PageState := runConstructs ex8args (initState [])

/-- The dialog at the top of `ex8`. -/
def mtop8 : ModalWindow :=
  ModalWindow.mkWindow none none none (mergeConfig (normalizeOptions .null)) 2 1 100

lemma ex8_wf : ModalWindow.WFStore ex8 := by
  have h := c4_run ex8args 100 0 (initState []) (c4_init [])
  rw [Nat.zero_add] at h
  exact ModalWindow.WFStore_of_C4Inv h

/-- C8 witness: the amended theorem applied to the concrete two-dialog
page `ex8` — Escape removes dialog 2, keeps dialog 1 registered, and
the new most-recent dialog and mask are non-inert. -/
theorem c8_witness :
    (escapeKeyup "Escape" ex8).store mtop8.index = none ∧
    ((ex8.store 1).isSome ↔ ((escapeKeyup "Escape" ex8).store 1).isSome) ∧
    ((ModalWindow.getMostRecent (escapeKeyup "Escape" ex8) false).map
      (fun mr => mr.dialogNode.inert) = some false) ∧
    ((ModalWindow.getMostRecent (escapeKeyup "Escape" ex8) false).map
      (fun mr => mr.maskNode.inert) = some false) := by
  obtain ⟨h1, h2, h3, mr, hmr, hd, hm⟩ :=
    c8_escape_removes_top_amended ex8 mtop8 ex8_wf rfl rfl (by decide)
  refine ⟨h1, h2 1 (by decide), ?_, ?_⟩
  · rw [hmr]
    simp [hd]
  · rw [hmr]
    simp [hm]
